import Mathlib

/-!
Shallow embedding of the catGar sync engine (catgar.py).

Conventions used throughout:
* JSON-like Python values are modelled by the inductive type `JVal`
  (numbers as rationals, objects as ordered association lists, which is
  how Python preserves dict insertion order).
* Python exceptions are modelled by `PyExc`; code that can raise is
  translated into `Except PyExc` valued functions, and a `try/except`
  clause becomes a `match` on that result.
* Calendar dates are a `Date` structure; `datetime.strptime` with the
  formats used by the code is implemented as an executable parser, and
  `strftime` as an executable formatter (the year is zero padded to four
  digits, the documented YYYY-MM-DD form of the state file).
* `timedelta` day arithmetic in the planner and backfill search is the
  arithmetic of day numbers, so those components work over `Int`
  (a date is identified with its day ordinal).
-/

namespace CatGar

/-! ## Characters and digits -/

def digitChar (n : Nat) : Char := Char.ofNat (48 + n)

def digitVal (c : Char) : Nat := c.toNat - 48

theorem digitVal_digitChar (n : Nat) (h : n < 10) : digitVal (digitChar n) = n := by
  interval_cases n <;> decide

theorem isDigit_digitChar (n : Nat) (h : n < 10) : (digitChar n).isDigit = true := by
  interval_cases n <;> decide

/-! ## Dates: the `datetime.date` values the program manipulates -/

structure Date where
  year : Nat
  month : Nat
  day : Nat
deriving DecidableEq, Repr

def isLeapYear (y : Nat) : Bool :=
  (y % 4 == 0 && y % 100 != 0) || y % 400 == 0

def daysInMonth (y m : Nat) : Nat :=
  if m = 2 then (if isLeapYear y then 29 else 28)
  else if m = 4 ∨ m = 6 ∨ m = 9 ∨ m = 11 then 30
  else 31

/-- Validity invariant of Python `datetime.date` values. -/
def Date.valid (d : Date) : Bool :=
  1 ≤ d.year && d.year ≤ 9999 && 1 ≤ d.month && d.month ≤ 12 &&
    1 ≤ d.day && d.day ≤ daysInMonth d.year d.month

def pad2 (n : Nat) : List Char := [digitChar (n / 10 % 10), digitChar (n % 10)]

def pad4 (n : Nat) : List Char :=
  [digitChar (n / 1000 % 10), digitChar (n / 100 % 10),
   digitChar (n / 10 % 10), digitChar (n % 10)]

/-- Models `d.strftime("%Y-%m-%d")` (zero-padded YYYY-MM-DD). -/
def formatDate (d : Date) : String :=
  String.mk (pad4 d.year ++ '-' :: pad2 d.month ++ '-' :: pad2 d.day)

/-- One 1-or-2 digit numeric field of a `strptime` pattern such as `%m`:
two digits are consumed when two digits are present (and the value must be
in range), otherwise a single nonzero digit is consumed.  `lo`/`hi` bound
the two-digit form, matching the regular expressions Python uses. -/
def parseField2 (lo hi : Nat) : List Char → Option (Nat × List Char)
  | c1 :: c2 :: rest =>
    if c1.isDigit then
      if c2.isDigit then
        let v := digitVal c1 * 10 + digitVal c2
        if lo ≤ v ∧ v ≤ hi then some (v, rest) else none
      else
        if 1 ≤ digitVal c1 then some (digitVal c1, c2 :: rest) else none
    else none
  | [c1] =>
    if c1.isDigit ∧ 1 ≤ digitVal c1 then some (digitVal c1, []) else none
  | [] => none

/-- The day field and the final range validation of the `datetime`
constructor (year and day-of-month checks; the month is already
range-checked by its field pattern).  `strptime` raising `ValueError`
on an out-of-range component is `none`. -/
def parseDayPart (y m : Nat) (cs : List Char) : Option (Date × List Char) :=
  match parseField2 1 31 cs with
  | some (d, rest) =>
    if 1 ≤ y ∧ 1 ≤ d ∧ d ≤ daysInMonth y m then some (⟨y, m, d⟩, rest) else none
  | none => none

/-- The month field followed by the literal dash. -/
def parseMonthPart (y : Nat) (cs : List Char) : Option (Date × List Char) :=
  match parseField2 1 12 cs with
  | some (m, c2 :: rest2) => if c2 = '-' then parseDayPart y m rest2 else none
  | _ => none

/-- The `%Y-%m-%d` pattern: four year digits, dash, month field, dash,
day field; returns the remaining characters. -/
def parseYMD (cs : List Char) : Option (Date × List Char) :=
  match cs with
  | y1 :: y2 :: y3 :: y4 :: c :: rest =>
    if y1.isDigit ∧ y2.isDigit ∧ y3.isDigit ∧ y4.isDigit ∧ c = '-' then
      parseMonthPart
        (digitVal y1 * 1000 + digitVal y2 * 100 + digitVal y3 * 10 + digitVal y4) rest
    else none
  | _ => none

/-- Models `datetime.strptime(s, "%Y-%m-%d")`, as `Option` (a raise is `none`). -/
def parseDate (s : String) : Option Date :=
  match parseYMD s.data with
  | some (d, []) => some d
  | _ => none

/-- Models `datetime.strptime(s, "%Y-%m-%d %H:%M:%S")`. -/
def parseDateTime (s : String) : Option (Date × Nat × Nat × Nat) :=
  match parseYMD s.data with
  | some (d, ' ' :: rest) =>
    match parseField2 0 23 rest with
    | some (hh, ':' :: rest2) =>
      match parseField2 0 59 rest2 with
      | some (mi, ':' :: rest3) =>
        match parseField2 0 61 rest3 with
        | some (ss, []) => if ss ≤ 59 then some (d, hh, mi, ss) else none
        | _ => none
      | _ => none
    | _ => none
  | _ => none

/-! ## JSON-like Python values -/

inductive JVal where
  | null
  | bool (b : Bool)
  | num (q : ℚ)
  | str (s : String)
  | arr (xs : List JVal)
  | obj (kvs : List (String × JVal))

/-- Python truthiness of a JSON-like value. -/
def pyTruthy (v : JVal) : Bool :=
  match v with
  | .null => false
  | .bool b => b
  | .num q => decide (q ≠ 0)
  | .str s => ¬ s.isEmpty
  | .arr xs => ¬ xs.isEmpty
  | .obj kvs => ¬ kvs.isEmpty

/-- First-occurrence lookup in an ordered association list (Python dicts
have unique keys; the list order is dict insertion order). -/
def jlookup (kvs : List (String × JVal)) (k : String) : Option JVal :=
  match kvs with
  | [] => none
  | p :: rest => if p.1 = k then some p.2 else jlookup rest k

def digitsToNat (cs : List Char) : Nat :=
  cs.foldl (fun a c => a * 10 + digitVal c) 0

/-- Exponent suffix of a float literal: empty, or `e`/`E`, an optional
sign and at least one digit consuming the whole remainder. -/
def parseExpPart (cs : List Char) (m : ℚ) : Option ℚ :=
  match cs with
  | [] => some m
  | e :: rest =>
    if e = 'e' ∨ e = 'E' then
      let (neg, rest2) :=
        match rest with
        | '-' :: r => (true, r)
        | '+' :: r => (false, r)
        | r => (false, r)
      if rest2 ≠ [] ∧ rest2.all Char.isDigit then
        let ex : ℤ := (digitsToNat rest2 : ℤ)
        some (m * (10 : ℚ) ^ (if neg then -ex else ex))
      else none
    else none

/-- Mantissa (integer part, optional dot and fraction) then exponent. -/
def parseMantissa (cs : List Char) : Option ℚ :=
  let intDigits := cs.takeWhile Char.isDigit
  let rest := cs.dropWhile Char.isDigit
  match rest with
  | '.' :: rest2 =>
    let fracDigits := rest2.takeWhile Char.isDigit
    let rest3 := rest2.dropWhile Char.isDigit
    if intDigits.isEmpty ∧ fracDigits.isEmpty then none
    else
      parseExpPart rest3
        ((digitsToNat intDigits : ℚ) +
          (digitsToNat fracDigits : ℚ) / (10 : ℚ) ^ fracDigits.length)
  | _ =>
    if intDigits.isEmpty then none
    else parseExpPart rest (digitsToNat intDigits : ℚ)

/-- Models Python `float(s)` on a string: surrounding whitespace is
stripped, then an optional sign and a decimal literal with optional
fraction and exponent.  (The special `inf`/`nan` spellings and digit
group underscores are not representable as rationals and are treated as
non-numeric here; no behaviour settled below depends on them.) -/
def pyFloatOfString (s : String) : Option ℚ :=
  let t := (s.data.dropWhile Char.isWhitespace).reverse.dropWhile Char.isWhitespace
  let t := t.reverse
  match t with
  | '-' :: rest => (parseMantissa rest).map (fun q => -q)
  | '+' :: rest => parseMantissa rest
  | rest => parseMantissa rest

/-- Models Python `int(s)` on a string: whitespace stripped, optional
sign, one or more digits. -/
def pyIntOfString (s : String) : Option Int :=
  let t := (s.data.dropWhile Char.isWhitespace).reverse.dropWhile Char.isWhitespace
  let t := t.reverse
  let core : List Char → Option Nat := fun cs =>
    if cs ≠ [] ∧ cs.all Char.isDigit then some (digitsToNat cs) else none
  match t with
  | '-' :: rest => (core rest).map (fun n => -(n : Int))
  | '+' :: rest => (core rest).map (fun n => (n : Int))
  | rest => (core rest).map (fun n => (n : Int))

/-! ## Python exceptions -/

inductive PyExc where
  | apiException
  | httpError (status : Option Nat)
  | valueError
  | typeError
  | attributeError
  | keyError
  | other
deriving DecidableEq, Repr

/-- Models `_safe_float(val, ...)`: `float(val)` with `ValueError` and
`TypeError` caught and turned into `None` (a log line aside).  `float`
succeeds on numbers and booleans, parses strings, and raises `TypeError`
on `None`, lists and dicts. -/
def _safe_float (val : JVal) : Option ℚ :=
  match val with
  | .num q => some q
  | .bool b => some (if b then 1 else 0)
  | .str s => pyFloatOfString s
  | .null => none
  | .arr _ => none
  | .obj _ => none

/-! ## Measurement points -/

/-- Timestamp of a point at its declared write precision. -/
inductive PTime where
  | sec (d : Date) (hh mi ss : Nat)
  | ms (t : Int)

/-- One InfluxDB point: measurement name, timestamp, ordered tags,
ordered numeric fields (tag values keep their raw Python value). -/
structure MPoint where
  measurement : String
  time : PTime
  tags : List (String × JVal)
  fields : List (String × ℚ)

/-- `_IGNORED_GENERIC_KEYS`: metadata keys never promoted to fields. -/
def _IGNORED_GENERIC_KEYS : List String :=
  ["calendarDate", "startTimestampGMT", "endTimestampGMT",
   "startTimestampLocal", "endTimestampLocal",
   "userProfilePK", "startOfDayGMT", "startOfDayLocal",
   "userDailySummaryId",
   "wellnessStartTimeGmt", "wellnessStartTimeLocal",
   "wellnessEndTimeGmt", "wellnessEndTimeLocal",
   "source", "stressQualifier",
   "latestSpo2ReadingTimeGmt", "latestSpo2ReadingTimeLocal",
   "latestRespirationTimeGMT",
   "latestSpO2TimestampGMT", "latestSpO2TimestampLocal",
   "tomorrowSleepStartTimestampGMT", "tomorrowSleepEndTimestampGMT",
   "tomorrowSleepStartTimestampLocal", "tomorrowSleepEndTimestampLocal",
   "startDate", "endDate"]

/-- One iteration of the `_collect_extra_fields` loop: declared and
ignored keys are skipped; `None`, dict and list values are skipped
before coercion; other values go through `_safe_float`. -/
def extraField (known_keys : List String) (p : String × JVal) :
    Option (String × ℚ) :=
  if known_keys.contains p.1 ∨ _IGNORED_GENERIC_KEYS.contains p.1 then none
  else
    match p.2 with
    | .null => none
    | .obj _ => none
    | .arr _ => none
    | v => (_safe_float v).map (fun q => (p.1, q))

/-- Models `_collect_extra_fields(data, known_keys, measurement)`:
numeric fields of `data` not declared and not ignored, in dict order.
Non-dict input yields no extras. -/
def _collect_extra_fields (data : JVal) (known_keys : List String) :
    List (String × ℚ) :=
  match data with
  | .obj kvs => kvs.filterMap (extraField known_keys)
  | _ => []

/-! ## Daily stats builder -/

/-- The `field_map` of `build_daily_stats_points`, in dict order. -/
def dailyStatsFieldMap : List (String × String) :=
  [("totalSteps", "steps"),
   ("totalDistanceMeters", "distance_meters"),
   ("activeKilocalories", "active_kcal"),
   ("totalKilocalories", "total_kcal"),
   ("restingHeartRate", "resting_hr"),
   ("maxHeartRate", "max_hr"),
   ("minHeartRate", "min_hr"),
   ("averageHeartRate", "avg_hr"),
   ("moderateIntensityMinutes", "moderate_intensity_min"),
   ("vigorousIntensityMinutes", "vigorous_intensity_min"),
   ("floorsAscended", "floors_ascended"),
   ("floorsDescended", "floors_descended"),
   ("averageStressLevel", "avg_stress"),
   ("maxStressLevel", "max_stress"),
   ("bodyBatteryChargedValue", "body_battery_charged"),
   ("bodyBatteryDrainedValue", "body_battery_drained"),
   ("bodyBatteryHighestValue", "body_battery_high"),
   ("bodyBatteryLowestValue", "body_battery_low")]

/-- The declared-field loop of `build_daily_stats_points`: for each map
entry whose source key is present and not `None`, coerce; a failed
coercion skips just that field. -/
def dailyDeclaredFields (kvs : List (String × JVal)) : List (String × ℚ) :=
  dailyStatsFieldMap.filterMap (fun p =>
    match jlookup kvs p.1 with
    | none => none
    | some .null => none
    | some v => (_safe_float v).map (fun q => (p.2, q)))

/-- Models `build_daily_stats_points(stats, day_str)`.
`strptime` runs first (raising `ValueError` on a bad day string); then
`stats.get(...)` raises `AttributeError` unless `stats` is a dict; on a
dict, one single-field point per declared field, then one per extra
discovered field, each stamped at midnight of the day, second precision. -/
def build_daily_stats_points (stats : JVal) (day_str : String) :
    Except PyExc (List MPoint) :=
  match parseDate day_str with
  | none => .error .valueError
  | some d =>
    let ts := PTime.sec d 0 0 0
    match stats with
    | .obj kvs =>
      .ok ((dailyDeclaredFields kvs).map
             (fun f => ⟨"daily_stats", ts, [], [f]⟩) ++
           (_collect_extra_fields (.obj kvs) (dailyStatsFieldMap.map Prod.fst)).map
             (fun f => ⟨"daily_stats", ts, [], [f]⟩))
    | _ => .error .attributeError

/-! ## Heart rate builder -/

/-- Models Python `int(val)` on a JSON-like value: truncation toward
zero for numbers, `0`/`1` for booleans, string parsing, `TypeError`
otherwise. -/
def pyInt (v : JVal) : Except PyExc Int :=
  match v with
  | .num q => .ok (Int.tdiv q.num q.den)
  | .bool b => .ok (if b then 1 else 0)
  | .str s =>
    match pyIntOfString s with
    | some n => .ok n
    | none => .error .valueError
  | _ => .error .typeError

/-- Models `x or []`. -/
def pyOrEmptyList (v : JVal) : JVal := if pyTruthy v then v else .arr []

/-- Models `for x in v`: lists iterate their elements, strings their
characters, dicts their keys; other values raise `TypeError`. -/
def pyIterate (v : JVal) : Except PyExc (List JVal) :=
  match v with
  | .arr xs => .ok xs
  | .str s => .ok (s.data.map (fun c => .str (String.mk [c])))
  | .obj kvs => .ok (kvs.map (fun p => .str p.1))
  | _ => .error .typeError

/-- One `pair` of the inner heart-rate loop: non-pairs and pairs with a
`None` member are skipped; otherwise `int(ts_ms)` then `int(hr)` run
(either may raise) and a single-field `bpm` point at millisecond
precision is produced. -/
def hrPairPoint (pair : JVal) : Except PyExc (Option MPoint) :=
  match pair with
  | .arr [tsv, hrv] =>
    match hrv, tsv with
    | .null, _ => .ok none
    | _, .null => .ok none
    | _, _ =>
      match pyInt tsv with
      | .error e => .error e
      | .ok t =>
        match pyInt hrv with
        | .error e => .error e
        | .ok h => .ok (some ⟨"heart_rate", .ms t, [], [("bpm", (h : ℚ))]⟩)
  | _ => .ok none

def hrPairsPoints : List JVal → Except PyExc (List MPoint)
  | [] => .ok []
  | pair :: rest =>
    match hrPairPoint pair with
    | .error e => .error e
    | .ok p? =>
      match hrPairsPoints rest with
      | .error e => .error e
      | .ok ps =>
        match p? with
        | some p => .ok (p :: ps)
        | none => .ok ps

/-- One `entry` of the outer heart-rate loop: non-dict entries and
falsy or non-list `heartRateValues` are skipped. -/
def hrEntryPoints (entry : JVal) : Except PyExc (List MPoint) :=
  match entry with
  | .obj kvs =>
    let hv := (jlookup kvs "heartRateValues").getD .null
    if pyTruthy hv then
      match hv with
      | .arr pairs => hrPairsPoints pairs
      | _ => .ok []
    else .ok []
  | _ => .ok []

def hrEntriesPoints : List JVal → Except PyExc (List MPoint)
  | [] => .ok []
  | entry :: rest =>
    match hrEntryPoints entry with
    | .error e => .error e
    | .ok ps =>
      match hrEntriesPoints rest with
      | .error e => .error e
      | .ok rest2 => .ok (ps ++ rest2)

/-- Models `build_heart_rate_points(hr_data, day_str)` (the day string
is unused by the source). -/
def build_heart_rate_points (hr_data : JVal) (day_str : String) :
    Except PyExc (List MPoint) :=
  match pyIterate (pyOrEmptyList hr_data) with
  | .error e => .error e
  | .ok entries => hrEntriesPoints entries

/-! ## Activity builder -/

/-- The `field_map` of `build_activity_points`; a `none` target is the
`trainingEffectLabel: None` suppression marker. -/
def activityFieldMap : List (String × Option String) :=
  [("distance", some "distance_meters"),
   ("duration", some "duration_sec"),
   ("elapsedDuration", some "elapsed_sec"),
   ("movingDuration", some "moving_sec"),
   ("averageHR", some "avg_hr"),
   ("maxHR", some "max_hr"),
   ("calories", some "calories"),
   ("averageSpeed", some "avg_speed"),
   ("maxSpeed", some "max_speed"),
   ("elevationGain", some "elevation_gain"),
   ("elevationLoss", some "elevation_loss"),
   ("averageRunningCadenceInStepsPerMinute", some "avg_cadence"),
   ("steps", some "steps"),
   ("vO2MaxValue", some "vo2max"),
   ("avgPower", some "avg_power"),
   ("maxPower", some "max_power"),
   ("trainingEffectLabel", none)]

/-- The declared-field loop of one activity: iterate the map in order,
skip suppressed targets, absent and `None` source keys, and failed
coercions. -/
def actFields (kvs : List (String × JVal)) : List (String × ℚ) :=
  activityFieldMap.filterMap (fun p =>
    match p.2 with
    | none => none
    | some tgt =>
      match jlookup kvs p.1 with
      | none => none
      | some .null => none
      | some v => (_safe_float v).map (fun q => (tgt, q)))

/-- The tail of the activity loop once the start time parsed:
`activityType` defaults to an empty dict but a present non-dict value
makes `.get("typeKey")` raise `AttributeError`; the point is appended
only when `has_fields` (at least one coerced field). -/
def actPointAt (kvs : List (String × JVal)) (tm : Date × Nat × Nat × Nat) :
    Except PyExc (Option MPoint) :=
  match (jlookup kvs "activityType").getD (.obj []) with
  | .obj akvs =>
    if (actFields kvs).isEmpty then .ok none
    else
      .ok (some ⟨"activity", .sec tm.1 tm.2.1 tm.2.2.1 tm.2.2.2,
                 [("type", (jlookup akvs "typeKey").getD (.str "unknown")),
                  ("name", (jlookup kvs "activityName").getD (.str ""))],
                 actFields kvs⟩)
  | _ => .error .attributeError

/-- One `act` of the activity loop.  `act.get` raises `AttributeError`
on a non-dict; the start time is `startTimeLocal or startTimeGMT`, and
a falsy or unparseable start time skips the activity
(`ValueError`/`TypeError` from `strptime` are caught). -/
def actPoint (act : JVal) : Except PyExc (Option MPoint) :=
  match act with
  | .obj kvs =>
    let ts_str := if pyTruthy ((jlookup kvs "startTimeLocal").getD .null)
      then (jlookup kvs "startTimeLocal").getD .null
      else (jlookup kvs "startTimeGMT").getD .null
    if pyTruthy ts_str then
      match (match ts_str with | .str s => parseDateTime s | _ => none) with
      | none => .ok none
      | some tm => actPointAt kvs tm
    else .ok none
  | _ => .error .attributeError

def actsPoints : List JVal → Except PyExc (List MPoint)
  | [] => .ok []
  | act :: rest =>
    match actPoint act with
    | .error e => .error e
    | .ok p? =>
      match actsPoints rest with
      | .error e => .error e
      | .ok ps =>
        match p? with
        | some p => .ok (p :: ps)
        | none => .ok ps

/-- Models `build_activity_points(activities)`. -/
def build_activity_points (activities : JVal) : Except PyExc (List MPoint) :=
  match pyIterate (pyOrEmptyList activities) with
  | .error e => .error e
  | .ok acts => actsPoints acts

/-! ## Last-sync state helpers -/

/-- The observable contents of the state file: absent, text that
`json.loads` rejects, or text that decodes to the JSON value `v`. -/
inductive FileContent where
  | missing
  | invalid
  | json (v : JVal)

/-- Models `read_last_sync(state_file)`.  A missing file is `None`;
`JSONDecodeError`, `KeyError` and `ValueError` (bad date string) are
caught and give `None`; indexing a non-dict document or handing
`strptime` a non-string raises `TypeError`, which the source does not
catch. -/
def read_last_sync (f : FileContent) : Except PyExc (Option Date) :=
  match f with
  | .missing => .ok none
  | .invalid => .ok none
  | .json v =>
    match v with
    | .obj kvs =>
      match jlookup kvs "last_sync" with
      | none => .ok none
      | some (.str s) => .ok (parseDate s)
      | some _ => .error .typeError
    | _ => .error .typeError

/-- Models `write_last_sync(sync_date, state_file)`: the file afterwards
holds the one-key JSON document with the formatted date. -/
def write_last_sync (sync_date : Date) : FileContent :=
  .json (.obj [("last_sync", .str (formatDate sync_date))])

/-! ## Backfill binary search -/

/-- The `while low < high` loop of `find_oldest_available_date`, over
day offsets from `earliest`. -/
def bsearchLoop (probe : Nat → Bool) (low high : Nat) : Nat :=
  if _h : low < high then
    let mid := (low + high) / 2
    if probe mid then bsearchLoop probe low mid
    else bsearchLoop probe (mid + 1) high
  else low
termination_by high - low
decreasing_by
  · omega
  · omega

/-- Models `find_oldest_available_date(garmin_client, earliest, latest)`
with dates as day numbers and the network probe `_probe_date` as the
boolean function `probe` (the source swallows every probe failure into a
negative probe, so the probe is total). -/
def find_oldest_available_date (probe : Int → Bool) (earliest latest : Int) : Int :=
  let high : Int := latest - earliest
  if high ≤ 0 then
    if probe latest then latest else latest
  else if probe earliest then earliest
  else if probe latest = false then latest
  else earliest + (bsearchLoop (fun k => probe (earliest + (k : Int))) 0 high.toNat : Int)

/-! ## Date range planner (auto-resume arm of main) -/

/-- The consecutive day numbers `s, s+1, ..., e` (empty when `e < s`);
the day loop of `main` runs over `days = (end-start).days + 1` offsets. -/
def daysList (s e : Int) : List Int :=
  (List.range (e - s + 1).toNat).map (fun (i : Nat) => s + (i : Int))

/-- The auto-resume arm of the date planning in `main`: the `(start,
end)` window, or `none` for the early "nothing to do" return. -/
def resolveAutoWindow (last : Option Int) (today : Int) : Option (Int × Int) :=
  match last with
  | some l =>
    let start := l + 1
    if start > today then none else some (start, today)
  | none => some (today, today)

/-- The days actually synced in auto-resume mode. -/
def autoResumeDays (last : Option Int) (today : Int) : List Int :=
  match resolveAutoWindow last today with
  | none => []
  | some (s, e) => daysList s e

/-! ## Sync orchestrator (fetch_and_write and the main day loop)

The network-facing collector lambdas are opaque capabilities; one
invocation of a collector is summarised by an `Outcome`: either it
returned a point list of a given length (and the sink write succeeded),
or it raised an exception.  -/

inductive Outcome where
  | ok (npts : Nat)
  | exc (e : PyExc)
deriving DecidableEq, Repr

def Outcome.isOk : Outcome → Bool
  | .ok _ => true
  | .exc _ => false

/-- Models `_is_no_data_not_found(exc)`: an `ApiException` is never
benign, an `HTTPError` is benign exactly when its response status is
404, anything else is not benign. -/
def is_no_data_not_found (e : PyExc) : Bool :=
  match e with
  | .apiException => false
  | .httpError status => status = some 404
  | _ => false

/-- The activities block of `fetch_and_write`: the initial
fetch/build/write may raise (`excAtFetch`), or the activity list yields
`npts` points and for each discovered session a run of the five detail
collectors (`details`), possibly ending in an exception raised by the
outer per-activity loop itself after those sessions (`tailExc`). -/
inductive ActsOutcome where
  | excAtFetch (e : PyExc)
  | ok (npts : Nat) (details : List (List (String × Outcome))) (tailExc : Option PyExc)
deriving DecidableEq, Repr

/-- One day of collector behaviour: the sixteen top-level collectors in
registry order, then the activities block. -/
structure DayOutcome where
  cols : List (String × Outcome)
  acts : ActsOutcome
deriving DecidableEq, Repr

/-- The `(total, errors, counts)` accumulator of `fetch_and_write`. -/
structure DayStats where
  total : Nat
  errors : List (String × PyExc)
  counts : List (String × Nat)
deriving DecidableEq, Repr

/-- `counts[name] = counts.get(name, 0) + n` on an insertion-ordered dict. -/
def updCount : List (String × Nat) → String → Nat → List (String × Nat)
  | [], k, n => [(k, n)]
  | p :: rest, k, n =>
    if p.1 = k then (p.1, p.2 + n) :: rest else p :: updCount rest k n

/-- One iteration of the top-level collector loop: a non-empty point
list is written and counted, an empty one is "no data", a benign
exception is "no data (not found)", any other exception is appended to
the error list. -/
def processCollector (acc : DayStats) (c : String × Outcome) : DayStats :=
  match c.2 with
  | .ok n =>
    if 0 < n then
      { acc with total := acc.total + n, counts := updCount acc.counts c.1 n }
    else acc
  | .exc e =>
    if is_no_data_not_found e then acc
    else { acc with errors := acc.errors ++ [(c.1, e)] }

/-- One iteration of the detail-collector loop: points are written and
counted, every exception — benign or not — is only logged. -/
def processDetail (acc : DayStats) (c : String × Outcome) : DayStats :=
  match c.2 with
  | .ok n =>
    if 0 < n then
      { acc with total := acc.total + n, counts := updCount acc.counts c.1 n }
    else acc
  | .exc _ => acc

/-- The activities block: an exception from the block is recorded
against "activities" unless benign; otherwise the list points are
counted, every detail run folds in with `processDetail`, and a trailing
loop exception is classified like the fetch one. -/
def processActs (acc : DayStats) (a : ActsOutcome) : DayStats :=
  match a with
  | .excAtFetch e =>
    if is_no_data_not_found e then acc
    else { acc with errors := acc.errors ++ [("activities", e)] }
  | .ok n details tailExc =>
    let acc1 :=
      if 0 < n then
        { acc with total := acc.total + n, counts := updCount acc.counts "activities" n }
      else acc
    let acc2 := details.foldl (fun a dcols => dcols.foldl processDetail a) acc1
    match tailExc with
    | none => acc2
    | some e =>
      if is_no_data_not_found e then acc2
      else { acc2 with errors := acc2.errors ++ [("activities", e)] }

/-- Models `fetch_and_write(...)` for one day, given the behaviour of
every collector invocation that day. -/
def fetch_and_write (d : DayOutcome) : DayStats :=
  processActs (d.cols.foldl processCollector ⟨0, [], []⟩) d.acts

/-- `counts.get(name, 0) + cnt` merging of a day into the run totals. -/
def mergeCounts (g c : List (String × Nat)) : List (String × Nat) :=
  c.foldl (fun g p => updCount g p.1 p.2) g

/-- One day of the day loop of `main`: extend `grand_total`,
`all_errors` and `grand_counts` with that day's results. -/
def syncStep (acc : DayStats) (d : DayOutcome) : DayStats :=
  let r := fetch_and_write d
  ⟨acc.total + r.total, acc.errors ++ r.errors, mergeCounts acc.counts r.counts⟩

/-- The day loop of `main` over the planned window. -/
def runSync (ds : List DayOutcome) : DayStats :=
  ds.foldl syncStep ⟨0, [], []⟩

/-- What `main` does after the day loop: the date handed to
`write_last_sync` (or `none` when the cursor file is left untouched)
and the process exit code. -/
structure RunReport where
  cursorWritten : Option Int
  exitCode : Nat
deriving DecidableEq, Repr

/-- The commit step of `main`: write the cursor to the window end iff
`all_errors` stayed empty, and `sys.exit(1)` iff it did not. -/
def mainRun (ds : List DayOutcome) (endDay : Int) : RunReport :=
  let allErrors := (runSync ds).errors
  { cursorWritten := if allErrors.isEmpty then some endDay else none
    exitCode := if allErrors.isEmpty then 0 else 1 }

/-! ## Helper lemmas -/

theorem filterMap_ext {α β : Type} (l : List α) (f g : α → Option β)
    (h : ∀ x ∈ l, f x = g x) : l.filterMap f = l.filterMap g := by
  induction l with
  | nil => rfl
  | cons a t ih =>
    rw [List.filterMap_cons, List.filterMap_cons, h a (List.mem_cons_self a t),
      ih (fun x hx => h x (List.mem_cons_of_mem a hx))]

theorem jlookup_not_mem (l : List (String × JVal)) (k : String)
    (h : k ∉ l.map Prod.fst) : jlookup l k = none := by
  induction l with
  | nil => rfl
  | cons p t ih =>
    simp only [List.map_cons, List.mem_cons, not_or] at h
    rw [jlookup, if_neg (fun hp => h.1 hp.symm), ih h.2]

theorem jlookup_middle_self (pre post : List (String × JVal)) (k : String) (v : JVal)
    (h : k ∉ pre.map Prod.fst) : jlookup (pre ++ (k, v) :: post) k = some v := by
  induction pre with
  | nil => simp [jlookup]
  | cons p t ih =>
    simp only [List.map_cons, List.mem_cons, not_or] at h
    rw [List.cons_append, jlookup, if_neg (fun hp => h.1 hp.symm), ih h.2]

theorem jlookup_middle_ne (pre post : List (String × JVal)) (k g : String) (v : JVal)
    (hne : g ≠ k) : jlookup (pre ++ (k, v) :: post) g = jlookup (pre ++ post) g := by
  induction pre with
  | nil => rw [List.nil_append, List.nil_append, jlookup, if_neg (Ne.symm hne)]
  | cons p t ih => rw [List.cons_append, List.cons_append, jlookup, jlookup, ih]

theorem mem_daysList (s e x : Int) : x ∈ daysList s e ↔ s ≤ x ∧ x ≤ e := by
  unfold daysList
  constructor
  · intro hx
    rcases List.mem_map.mp hx with ⟨i, hi, rfl⟩
    rw [List.mem_range] at hi
    omega
  · intro hx
    exact List.mem_map.mpr ⟨(x - s).toNat, List.mem_range.mpr (by omega), by omega⟩

theorem daysInMonth_le_31 (y m : Nat) : daysInMonth y m ≤ 31 := by
  unfold daysInMonth
  split
  · split <;> omega
  · split <;> omega

theorem valid_bounds (d : Date) (h : d.valid = true) :
    1 ≤ d.year ∧ d.year ≤ 9999 ∧ 1 ≤ d.month ∧ d.month ≤ 12 ∧
      1 ≤ d.day ∧ d.day ≤ daysInMonth d.year d.month := by
  simp only [Date.valid, Bool.and_eq_true, decide_eq_true_eq] at h
  tauto

theorem parseField2_pad2 (lo hi n : Nat) (rest : List Char)
    (h1 : lo ≤ n) (h2 : n ≤ hi) (h3 : n < 100) :
    parseField2 lo hi (pad2 n ++ rest) = some (n, rest) := by
  have d1 : n / 10 % 10 < 10 := Nat.mod_lt _ (by norm_num)
  have d2 : n % 10 < 10 := Nat.mod_lt _ (by norm_num)
  have hn : n / 10 % 10 * 10 + n % 10 = n := by omega
  simp only [pad2, List.cons_append, List.nil_append, parseField2,
    isDigit_digitChar _ d1, isDigit_digitChar _ d2,
    digitVal_digitChar _ d1, digitVal_digitChar _ d2, if_true, hn]
  rw [if_pos ⟨h1, h2⟩]

theorem parseMonthPart_eval (y m : Nat) (cs : List Char)
    (h3 : 1 ≤ m) (h4 : m ≤ 12) :
    parseMonthPart y (pad2 m ++ '-' :: cs) = parseDayPart y m cs := by
  unfold parseMonthPart
  rw [parseField2_pad2 1 12 m _ h3 h4 (by omega)]
  rfl

theorem parseDayPart_eval (y m dd : Nat) (h1 : 1 ≤ y) (h5 : 1 ≤ dd)
    (h31 : dd ≤ 31) (hd : dd ≤ daysInMonth y m) :
    parseDayPart y m (pad2 dd) = some (⟨y, m, dd⟩, []) := by
  unfold parseDayPart
  rw [show pad2 dd = pad2 dd ++ [] from (List.append_nil _).symm,
    parseField2_pad2 1 31 dd [] h5 h31 (by omega)]
  show (if 1 ≤ y ∧ 1 ≤ dd ∧ dd ≤ daysInMonth y m then
      some ((⟨y, m, dd⟩ : Date), ([] : List Char)) else none) = _
  rw [if_pos ⟨h1, h5, hd⟩]

theorem parseDate_formatDate (d : Date) (h : d.valid = true) :
    parseDate (formatDate d) = some d := by
  obtain ⟨h1, h2, h3, h4, h5, h6⟩ := valid_bounds d h
  have hy1 : d.year / 1000 % 10 < 10 := Nat.mod_lt _ (by norm_num)
  have hy2 : d.year / 100 % 10 < 10 := Nat.mod_lt _ (by norm_num)
  have hy3 : d.year / 10 % 10 < 10 := Nat.mod_lt _ (by norm_num)
  have hy4 : d.year % 10 < 10 := Nat.mod_lt _ (by norm_num)
  have hday31 : d.day ≤ 31 := le_trans h6 (daysInMonth_le_31 _ _)
  unfold parseDate formatDate
  rw [show (String.mk (pad4 d.year ++ '-' :: pad2 d.month ++ '-' :: pad2 d.day)).data
        = pad4 d.year ++ '-' :: pad2 d.month ++ '-' :: pad2 d.day from rfl]
  simp only [pad4, List.cons_append, List.nil_append, parseYMD]
  rw [if_pos (⟨isDigit_digitChar _ hy1, isDigit_digitChar _ hy2,
    isDigit_digitChar _ hy3, isDigit_digitChar _ hy4, by trivial⟩ :
      _ ∧ _ ∧ _ ∧ _ ∧ _)]
  simp only [digitVal_digitChar _ hy1, digitVal_digitChar _ hy2,
    digitVal_digitChar _ hy3, digitVal_digitChar _ hy4]
  rw [show d.year / 1000 % 10 * 1000 + d.year / 100 % 10 * 100 +
        d.year / 10 % 10 * 10 + d.year % 10 = d.year from by omega]
  rw [parseMonthPart_eval d.year d.month _ h3 h4]
  rw [parseDayPart_eval d.year d.month d.day h1 h5 hday31 h6]

/-! ## C9 -/

/-- C9: for every input value that is None, a list, a dict, or a
non-numeric string, `_safe_float` returns no value (and, being a total
function into `Option`, never raises). -/
theorem c9_safe_float_no_value :
    _safe_float .null = none ∧
    (∀ xs, _safe_float (.arr xs) = none) ∧
    (∀ kvs, _safe_float (.obj kvs) = none) ∧
    (∀ s, pyFloatOfString s = none → _safe_float (.str s) = none) :=
  ⟨rfl, fun _ => rfl, fun _ => rfl, fun _ h => h⟩

/-- C9 witness at the concrete non-numeric string "not_a_number". -/
theorem c9_witness :
    pyFloatOfString "not_a_number" = none ∧
    _safe_float (.str "not_a_number") = none :=
  ⟨by decide, c9_safe_float_no_value.2.2.2 "not_a_number" (by decide)⟩

/-! ## C6 -/

/-- C6: on day 2024-06-01, a stats record with totalSteps 8500,
restingHeartRate 58 and the undeclared key newField 42 builds exactly
three daily_stats points carrying steps=8500, resting_hr=58 and
newField=42 (the unmapped key kept under its raw name). -/
theorem c6_daily_stats_scenario :
    build_daily_stats_points
      (.obj [("totalSteps", .num 8500), ("restingHeartRate", .num 58),
             ("newField", .num 42)])
      "2024-06-01" =
    .ok [⟨"daily_stats", .sec ⟨2024, 6, 1⟩ 0 0 0, [], [("steps", 8500)]⟩,
         ⟨"daily_stats", .sec ⟨2024, 6, 1⟩ 0 0 0, [], [("resting_hr", 58)]⟩,
         ⟨"daily_stats", .sec ⟨2024, 6, 1⟩ 0 0 0, [], [("newField", 42)]⟩] := by
  rfl

/-! ## C5 -/

/-- C5: in auto-resume mode, a cursor before today plans exactly the
days from the day after the cursor through today; a cursor at or past
today plans nothing; no cursor plans exactly today.  The last conjunct
is the two-day scenario (cursor c, today c+2). -/
theorem c5_auto_resume_window (c today : Int) :
    (c < today →
      ∀ x : Int, x ∈ autoResumeDays (some c) today ↔ c + 1 ≤ x ∧ x ≤ today) ∧
    (today ≤ c → autoResumeDays (some c) today = []) ∧
    (∀ x : Int, x ∈ autoResumeDays none today ↔ x = today) ∧
    (today = c + 2 → autoResumeDays (some c) today = [c + 1, c + 2]) := by
  refine ⟨fun hlt x => ?_, fun hge => ?_, fun x => ?_, fun h2 => ?_⟩
  · rw [show autoResumeDays (some c) today = daysList (c + 1) today from by
      simp only [autoResumeDays, resolveAutoWindow, if_neg (by omega : ¬ c + 1 > today)]]
    rw [mem_daysList]
  · simp only [autoResumeDays, resolveAutoWindow, if_pos (by omega : c + 1 > today)]
  · rw [show autoResumeDays none today = daysList today today from rfl, mem_daysList]
    omega
  · subst h2
    rw [show autoResumeDays (some c) (c + 2) = daysList (c + 1) (c + 2) from by
      simp only [autoResumeDays, resolveAutoWindow, if_neg (by omega : ¬ c + 1 > c + 2)]]
    unfold daysList
    rw [show (c + 2 - (c + 1) + 1 : Int).toNat = 2 by omega,
      show List.range 2 = [0, 1] from rfl]
    simp only [List.map_cons, List.map_nil]
    norm_num
    omega

/-- C5 witness: cursor day 0, today day 2 plans exactly days 1 and 2. -/
theorem c5_witness :
    (2 : Int) = 0 + 2 ∧ autoResumeDays (some 0) 2 = [0 + 1, 0 + 2] :=
  ⟨by norm_num, (c5_auto_resume_window 0 2).2.2.2 (by norm_num)⟩

/-! ## C7 -/

/-- C7: writing cursor date X and then reading the state file back
returns X, for every valid calendar date X; and a missing file, a file
that does not decode as JSON, a JSON document without the cursor key,
and a cursor value that does not parse as a date all read back as
"no prior sync" without raising. -/
theorem c7_state_roundtrip :
    (∀ d : Date, d.valid = true →
       read_last_sync (write_last_sync d) = .ok (some d)) ∧
    read_last_sync .missing = .ok none ∧
    read_last_sync .invalid = .ok none ∧
    (∀ kvs, jlookup kvs "last_sync" = none →
       read_last_sync (.json (.obj kvs)) = .ok none) ∧
    (∀ s, parseDate s = none →
       read_last_sync (.json (.obj [("last_sync", .str s)])) = .ok none) := by
  refine ⟨fun d h => ?_, rfl, rfl, fun kvs h => ?_, fun s h => ?_⟩
  · show Except.ok (parseDate (formatDate d)) = Except.ok (some d)
    rw [parseDate_formatDate d h]
  · simp only [read_last_sync, h]
  · show Except.ok (parseDate s) = Except.ok none
    rw [h]

/-- C7 witness: round trip at 2024-06-10, and the missing-key case at a
concrete one-entry document. -/
theorem c7_witness :
    (Date.mk 2024 6 10).valid = true ∧
    read_last_sync (write_last_sync ⟨2024, 6, 10⟩) = .ok (some ⟨2024, 6, 10⟩) ∧
    jlookup [("other", JVal.num 1)] "last_sync" = none ∧
    read_last_sync (.json (.obj [("other", JVal.num 1)])) = .ok none ∧
    parseDate "not-a-date" = none ∧
    read_last_sync (.json (.obj [("last_sync", .str "not-a-date")])) = .ok none :=
  ⟨by decide, c7_state_roundtrip.1 ⟨2024, 6, 10⟩ (by decide),
   rfl, c7_state_roundtrip.2.2.2.1 [("other", JVal.num 1)] rfl,
   by decide, c7_state_roundtrip.2.2.2.2 "not-a-date" (by decide)⟩

/-! ## C3 -/

theorem bsearchLoop_eq_aux (q : Nat → Bool) (fuel : Nat) :
    ∀ lo hi d, hi - lo ≤ fuel → lo ≤ d → d ≤ hi →
      (∀ k, lo ≤ k → k < hi → (q k = true ↔ d ≤ k)) →
      bsearchLoop q lo hi = d := by
  induction fuel with
  | zero =>
    intro lo hi d h1 h2 h3 _
    unfold bsearchLoop
    rw [dif_neg (by omega : ¬ lo < hi)]
    omega
  | succ n ih =>
    intro lo hi d h1 h2 h3 hq
    unfold bsearchLoop
    by_cases hlt : lo < hi
    · rw [dif_pos hlt]
      by_cases hp : q ((lo + hi) / 2) = true
      · simp only [hp, if_true]
        exact ih lo ((lo + hi) / 2) d (by omega) h2
          ((hq _ (by omega) (by omega)).mp hp)
          (fun k hk1 hk2 => hq k hk1 (by omega))
      · simp only [hp, if_false]
        have hd : (lo + hi) / 2 < d := by
          rcases Nat.lt_or_ge ((lo + hi) / 2) d with h | h
          · exact h
          · exact absurd ((hq _ (by omega) (by omega)).mpr h) hp
        exact ih ((lo + hi) / 2 + 1) hi d (by omega) (by omega) h3
          (fun k hk1 hk2 => hq k (by omega) hk2)
    · rw [dif_neg hlt]
      omega

theorem bsearchLoop_eq (q : Nat → Bool) (lo hi d : Nat)
    (h2 : lo ≤ d) (h3 : d ≤ hi)
    (hq : ∀ k, lo ≤ k → k < hi → (q k = true ↔ d ≤ k)) :
    bsearchLoop q lo hi = d :=
  bsearchLoop_eq_aux q (hi - lo) lo hi d le_rfl h2 h3 hq

/-- C3: over a closed day range from E to L, a presence probe that is
false before some day D in the range and true from D through L makes
the backfill locator return exactly D; in particular a probe true
everywhere returns E (the case D = E), and a probe false everywhere on
the range returns L (second conjunct). -/
theorem c3_backfill_locator (probe : Int → Bool) (E L D : Int) (hEL : E ≤ L) :
    (E ≤ D ∧ D ≤ L ∧ (∀ x, E ≤ x → x ≤ L → (probe x = true ↔ D ≤ x)) →
       find_oldest_available_date probe E L = D) ∧
    ((∀ x, E ≤ x → x ≤ L → probe x = false) →
       find_oldest_available_date probe E L = L) := by
  constructor
  · rintro ⟨h1, h2, hmono⟩
    unfold find_oldest_available_date
    by_cases heq : L - E ≤ 0
    · rw [if_pos heq, ite_self]
      omega
    · rw [if_neg heq]
      by_cases hpe : probe E = true
      · rw [if_pos hpe]
        have := (hmono E le_rfl hEL).mp hpe
        omega
      · rw [if_neg hpe]
        have hED : E < D := by
          rcases Int.lt_or_le E D with h | h
          · exact h
          · have : probe E = true := (hmono E le_rfl hEL).mpr (by omega)
            exact absurd this hpe
        have hpl : probe L = true := (hmono L hEL le_rfl).mpr h2
        rw [if_neg (by simp [hpl] : ¬ probe L = false)]
        have hb : bsearchLoop (fun k => probe (E + (k : Int))) 0 (L - E).toNat
            = (D - E).toNat := by
          apply bsearchLoop_eq
          · omega
          · omega
          · intro k hk1 hk2
            rw [hmono (E + (k : Int)) (by omega) (by omega)]
            omega
        rw [hb]
        omega
  · intro hall
    unfold find_oldest_available_date
    by_cases heq : L - E ≤ 0
    · rw [if_pos heq, ite_self]
    · rw [if_neg heq]
      rw [if_neg (by simp [hall E le_rfl hEL] : ¬ probe E = true)]
      rw [if_pos (hall L hEL le_rfl)]

/-- C3 witness: range 2..9 with presence starting at day 5 locates 5;
range 4..7 with no data at all returns 7. -/
theorem c3_witness :
    (2 : Int) ≤ 9 ∧
    find_oldest_available_date (fun x => decide (5 ≤ x)) 2 9 = 5 ∧
    find_oldest_available_date (fun _ => false) 4 7 = 7 :=
  ⟨by decide,
   (c3_backfill_locator (fun x => decide (5 ≤ x)) 2 9 5 (by decide)).1
     ⟨by decide, by decide, fun x h1 h2 => by simp⟩,
   (c3_backfill_locator (fun _ => false) 4 7 7 (by decide)).2
     (fun x h1 h2 => rfl)⟩

/-! ## C4 -/

/-- C4 counterexample: the daily-stats builder is not total on a
missing/None record — `stats.get(...)` on `None` raises
`AttributeError`, so `build_daily_stats_points(None, "2024-06-01")`
raises instead of returning a list of points. -/
theorem c4_counterexample :
    build_daily_stats_points .null "2024-06-01" = .error .attributeError := by
  rfl

/-! ## Orchestrator lemmas, C2, C1 and C10 -/

theorem foldl_pc_ok_errors (l : List (String × Outcome)) (acc : DayStats)
    (h : ∀ c ∈ l, c.2.isOk = true) :
    (l.foldl processCollector acc).errors = acc.errors := by
  induction l generalizing acc with
  | nil => rfl
  | cons c rest ih =>
    have hc := h c (List.mem_cons_self c rest)
    rw [List.foldl_cons]
    rw [ih _ (fun x hx => h x (List.mem_cons_of_mem c hx))]
    cases hco : c.2 with
    | ok n =>
      simp only [processCollector, hco]
      split <;> rfl
    | exc e => rw [hco] at hc; simp [Outcome.isOk] at hc

theorem foldl_pd_errors (l : List (String × Outcome)) (acc : DayStats) :
    (l.foldl processDetail acc).errors = acc.errors := by
  induction l generalizing acc with
  | nil => rfl
  | cons c rest ih =>
    rw [List.foldl_cons, ih]
    cases hco : c.2 with
    | ok n => simp only [processDetail, hco]; split <;> rfl
    | exc e => simp only [processDetail, hco]

theorem foldl_details_errors (det : List (List (String × Outcome))) (acc : DayStats) :
    (det.foldl (fun (a : DayStats) (dcols : List (String × Outcome)) =>
        dcols.foldl processDetail a) acc).errors = acc.errors := by
  induction det generalizing acc with
  | nil => rfl
  | cons dc rest ih => rw [List.foldl_cons, ih, foldl_pd_errors]

theorem processActs_errors (acc : DayStats) (x : ActsOutcome) :
    (processActs acc x).errors =
      acc.errors ++ (processActs ⟨0, [], []⟩ x).errors := by
  cases x with
  | excAtFetch e =>
    by_cases hb : is_no_data_not_found e = true
    · simp [processActs, hb]
    · simp [processActs, hb]
  | ok n det tail =>
    simp only [processActs]
    have hacc1 : (if 0 < n then
        (⟨acc.total + n, acc.errors, updCount acc.counts "activities" n⟩ : DayStats)
        else acc).errors = acc.errors := by
      by_cases hn : 0 < n <;> simp [hn]
    have hacc1z : (if 0 < n then
        (⟨0 + n, [], updCount [] "activities" n⟩ : DayStats)
        else (⟨0, [], []⟩ : DayStats)).errors = ([] : List (String × PyExc)) := by
      by_cases hn : 0 < n <;> simp [hn]
    cases tail with
    | none =>
      rw [foldl_details_errors, foldl_details_errors, hacc1, hacc1z, List.append_nil]
    | some e =>
      by_cases hb : is_no_data_not_found e = true
      · simp only [if_pos hb]
        rw [foldl_details_errors, foldl_details_errors, hacc1, hacc1z, List.append_nil]
      · simp only [if_neg hb]
        rw [foldl_details_errors, foldl_details_errors, hacc1, hacc1z,
          List.nil_append]

theorem foldl_pd_tc (l : List (String × Outcome)) (a b : DayStats)
    (ht : a.total = b.total) (hc : a.counts = b.counts) :
    (l.foldl processDetail a).total = (l.foldl processDetail b).total ∧
    (l.foldl processDetail a).counts = (l.foldl processDetail b).counts := by
  induction l generalizing a b with
  | nil => exact ⟨ht, hc⟩
  | cons c rest ih =>
    rw [List.foldl_cons, List.foldl_cons]
    apply ih
    · cases hco : c.2 <;> simp only [processDetail, hco] <;> try exact ht
      split <;> simp [ht]
    · cases hco : c.2 <;> simp only [processDetail, hco] <;> try exact hc
      split <;> simp [ht, hc]

theorem foldl_details_tc (det : List (List (String × Outcome))) (a b : DayStats)
    (ht : a.total = b.total) (hc : a.counts = b.counts) :
    (det.foldl (fun (x : DayStats) (dcols : List (String × Outcome)) =>
        dcols.foldl processDetail x) a).total =
      (det.foldl (fun (x : DayStats) (dcols : List (String × Outcome)) =>
        dcols.foldl processDetail x) b).total ∧
    (det.foldl (fun (x : DayStats) (dcols : List (String × Outcome)) =>
        dcols.foldl processDetail x) a).counts =
      (det.foldl (fun (x : DayStats) (dcols : List (String × Outcome)) =>
        dcols.foldl processDetail x) b).counts := by
  induction det generalizing a b with
  | nil => exact ⟨ht, hc⟩
  | cons dc rest ih =>
    rw [List.foldl_cons, List.foldl_cons]
    exact ih _ _ (foldl_pd_tc dc a b ht hc).1 (foldl_pd_tc dc a b ht hc).2

theorem processActs_tc (a b : DayStats) (x : ActsOutcome)
    (ht : a.total = b.total) (hc : a.counts = b.counts) :
    (processActs a x).total = (processActs b x).total ∧
    (processActs a x).counts = (processActs b x).counts := by
  cases x with
  | excAtFetch e =>
    by_cases hb : is_no_data_not_found e = true
    · simp [processActs, hb, ht, hc]
    · simp [processActs, hb, ht, hc]
  | ok n det tail =>
    simp only [processActs]
    have hstep := foldl_details_tc det
      (if 0 < n then ⟨a.total + n, a.errors, updCount a.counts "activities" n⟩ else a)
      (if 0 < n then ⟨b.total + n, b.errors, updCount b.counts "activities" n⟩ else b)
      (by by_cases hn : 0 < n <;> simp [hn, ht])
      (by by_cases hn : 0 < n <;> simp [hn, hc])
    cases tail with
    | none => exact hstep
    | some e =>
      by_cases hb : is_no_data_not_found e = true
      · simp only [if_pos hb]
        exact hstep
      · simp only [if_neg hb]
        exact ⟨hstep.1, hstep.2⟩

theorem foldl_pc_tc (l : List (String × Outcome)) (a b : DayStats)
    (ht : a.total = b.total) (hc : a.counts = b.counts) :
    (l.foldl processCollector a).total = (l.foldl processCollector b).total ∧
    (l.foldl processCollector a).counts = (l.foldl processCollector b).counts := by
  induction l generalizing a b with
  | nil => exact ⟨ht, hc⟩
  | cons c rest ih =>
    rw [List.foldl_cons, List.foldl_cons]
    apply ih
    · simp only [processCollector]
      split <;> split <;> simp [ht]
    · simp only [processCollector]
      split <;> split <;> simp [hc]

/-- C2: in the per-day collector loop, one collector raising a
non-benign exception yields exactly one (category, exception) error
entry against that category only, while every other collector (all
succeeding) is still processed: totals and per-category counts are the
same as in the run without the failing collector. -/
theorem c2_failure_isolation (pre post : List (String × Outcome)) (nm : String)
    (e : PyExc) (acts : ActsOutcome)
    (hben : is_no_data_not_found e = false)
    (hok : ∀ c ∈ pre ++ post, c.2.isOk = true)
    (hacts : (processActs ⟨0, [], []⟩ acts).errors = []) :
    (fetch_and_write ⟨pre ++ (nm, .exc e) :: post, acts⟩).errors = [(nm, e)] ∧
    (fetch_and_write ⟨pre ++ (nm, .exc e) :: post, acts⟩).counts =
      (fetch_and_write ⟨pre ++ post, acts⟩).counts ∧
    (fetch_and_write ⟨pre ++ (nm, .exc e) :: post, acts⟩).total =
      (fetch_and_write ⟨pre ++ post, acts⟩).total := by
  have hpre : ∀ c ∈ pre, c.2.isOk = true :=
    fun c hcm => hok c (List.mem_append_left _ hcm)
  have hpost : ∀ c ∈ post, c.2.isOk = true :=
    fun c hcm => hok c (List.mem_append_right _ hcm)
  have hAerr : (pre.foldl processCollector ⟨0, [], []⟩).errors = [] :=
    foldl_pc_ok_errors pre ⟨0, [], []⟩ hpre
  have hstep : processCollector (pre.foldl processCollector ⟨0, [], []⟩) (nm, .exc e)
      = ⟨(pre.foldl processCollector ⟨0, [], []⟩).total,
         (pre.foldl processCollector ⟨0, [], []⟩).errors ++ [(nm, e)],
         (pre.foldl processCollector ⟨0, [], []⟩).counts⟩ := by
    simp [processCollector, hben]
  have hfold1 : (pre ++ (nm, Outcome.exc e) :: post).foldl processCollector ⟨0, [], []⟩
      = post.foldl processCollector
          (processCollector (pre.foldl processCollector ⟨0, [], []⟩) (nm, .exc e)) := by
    rw [List.foldl_append, List.foldl_cons]
  have hfold2 : (pre ++ post).foldl processCollector ⟨0, [], []⟩
      = post.foldl processCollector (pre.foldl processCollector ⟨0, [], []⟩) := by
    rw [List.foldl_append]
  have hBerr : (post.foldl processCollector
      (processCollector (pre.foldl processCollector ⟨0, [], []⟩) (nm, .exc e))).errors
      = [(nm, e)] := by
    rw [foldl_pc_ok_errors post _ hpost, hstep]
    simp [hAerr]
  have hBtc := foldl_pc_tc post
    (processCollector (pre.foldl processCollector ⟨0, [], []⟩) (nm, .exc e))
    (pre.foldl processCollector ⟨0, [], []⟩)
    (by rw [hstep]) (by rw [hstep])
  refine ⟨?_, ?_, ?_⟩
  · show (processActs _ acts).errors = [(nm, e)]
    rw [hfold1, processActs_errors, hBerr, hacts, List.append_nil]
  · show (processActs _ acts).counts = (processActs _ acts).counts
    rw [hfold1, hfold2]
    exact (processActs_tc _ _ acts hBtc.1 hBtc.2).2
  · show (processActs _ acts).total = (processActs _ acts).total
    rw [hfold1, hfold2]
    exact (processActs_tc _ _ acts hBtc.1 hBtc.2).1

/-- C2 witness: daily stats and heart rate succeed around a failing
sleep collector; only sleep is recorded and counts match the run
without it. -/
theorem c2_witness :
    is_no_data_not_found PyExc.other = false ∧
    (∀ c ∈ [("daily stats", Outcome.ok 2), ("heart rate", Outcome.ok 0)],
       c.2.isOk = true) ∧
    (processActs ⟨0, [], []⟩ (ActsOutcome.ok 1 [] none)).errors = [] ∧
    (fetch_and_write ⟨[("daily stats", .ok 2), ("sleep", .exc .other),
        ("heart rate", .ok 0)], .ok 1 [] none⟩).errors = [("sleep", PyExc.other)] ∧
    (fetch_and_write ⟨[("daily stats", .ok 2), ("sleep", .exc .other),
        ("heart rate", .ok 0)], .ok 1 [] none⟩).counts =
      (fetch_and_write ⟨[("daily stats", .ok 2), ("heart rate", .ok 0)],
        .ok 1 [] none⟩).counts :=
  ⟨by decide, by decide, by decide,
   (c2_failure_isolation [("daily stats", .ok 2)] [("heart rate", .ok 0)]
      "sleep" .other (.ok 1 [] none) (by decide) (by decide) (by decide)).1,
   (c2_failure_isolation [("daily stats", .ok 2)] [("heart rate", .ok 0)]
      "sleep" .other (.ok 1 [] none) (by decide) (by decide) (by decide)).2.1⟩

theorem foldl_syncStep_errors (ds : List DayOutcome) (acc : DayStats) :
    (ds.foldl syncStep acc).errors =
      acc.errors ++ (ds.map (fun d => (fetch_and_write d).errors)).flatten := by
  induction ds generalizing acc with
  | nil => simp
  | cons d rest ih => simp [syncStep, ih, List.append_assoc]

theorem runSync_errors_eq_nil_iff (ds : List DayOutcome) :
    (runSync ds).errors = [] ↔ ∀ d ∈ ds, (fetch_and_write d).errors = [] := by
  rw [runSync, foldl_syncStep_errors]
  simp

/-- C1: after the day loop, the cursor is written with the window end
date iff the run accumulated zero category-level errors over all days,
the exit code is 0 iff the same, and any error anywhere leaves the
cursor untouched and exits 1. -/
theorem c1_cursor_commit (ds : List DayOutcome) (endDay : Int) :
    ((mainRun ds endDay).cursorWritten = some endDay ↔
        ∀ d ∈ ds, (fetch_and_write d).errors = []) ∧
    ((mainRun ds endDay).exitCode = 0 ↔
        ∀ d ∈ ds, (fetch_and_write d).errors = []) ∧
    ((∃ d ∈ ds, (fetch_and_write d).errors ≠ []) →
        (mainRun ds endDay).cursorWritten = none ∧
        (mainRun ds endDay).exitCode = 1) := by
  have h := runSync_errors_eq_nil_iff ds
  unfold mainRun
  cases herr : (runSync ds).errors with
  | nil =>
    rw [herr] at h
    simp only [herr, List.isEmpty_nil, if_true]
    refine ⟨?_, ?_, ?_⟩
    · exact ⟨fun _ => h.mp rfl, fun _ => by trivial⟩
    · exact ⟨fun _ => h.mp rfl, fun _ => by trivial⟩
    · rintro ⟨d, hd, hne⟩
      exact absurd (h.mp rfl d hd) hne
  | cons a l =>
    rw [herr] at h
    simp only [herr, List.isEmpty_cons, if_false]
    refine ⟨?_, ?_, fun _ => ⟨rfl, rfl⟩⟩
    · constructor
      · intro hx; cases hx
      · intro hall
        exact absurd (h.mpr hall) (by simp)
    · constructor
      · intro hx; cases hx
      · intro hall
        exact absurd (h.mpr hall) (by simp)

/-- C1 witness: a one-day run whose sleep collector fails leaves the
cursor unwritten and exits 1. -/
theorem c1_witness :
    (∃ d ∈ [DayOutcome.mk [("sleep", .exc .other)] (.ok 0 [] none)],
       (fetch_and_write d).errors ≠ []) ∧
    (mainRun [DayOutcome.mk [("sleep", .exc .other)] (.ok 0 [] none)] 7).cursorWritten
        = none ∧
    (mainRun [DayOutcome.mk [("sleep", .exc .other)] (.ok 0 [] none)] 7).exitCode = 1 := by
  have hx : ∃ d ∈ [DayOutcome.mk [("sleep", .exc .other)] (.ok 0 [] none)],
      (fetch_and_write d).errors ≠ [] :=
    ⟨DayOutcome.mk [("sleep", .exc .other)] (.ok 0 [] none),
     List.mem_singleton.mpr rfl, by decide⟩
  exact ⟨hx, (c1_cursor_commit [DayOutcome.mk [("sleep", .exc .other)] (.ok 0 [] none)] 7).2.2 hx⟩

/-- C10: when every top-level collector succeeds and the activities
block completes (sub-category detail collectors may raise arbitrary
exceptions), the run records no error entries, the cursor is advanced
to the window end, and the exit code is 0. -/
theorem c10_subcategory_failures_benign (ds : List DayOutcome) (endDay : Int)
    (h : ∀ d ∈ ds, (∀ c ∈ d.cols, c.2.isOk = true) ∧
         ∃ n det, d.acts = ActsOutcome.ok n det none) :
    (runSync ds).errors = [] ∧
    (mainRun ds endDay).cursorWritten = some endDay ∧
    (mainRun ds endDay).exitCode = 0 := by
  have herr : ∀ d ∈ ds, (fetch_and_write d).errors = [] := by
    intro d hd
    obtain ⟨hcols, n, det, hacts⟩ := h d hd
    show (processActs (d.cols.foldl processCollector ⟨0, [], []⟩) d.acts).errors = []
    rw [processActs_errors, foldl_pc_ok_errors _ _ hcols, hacts]
    have hz : (processActs ⟨0, [], []⟩ (ActsOutcome.ok n det none)).errors = [] := by
      simp only [processActs]
      rw [foldl_details_errors]
      by_cases hn : 0 < n <;> simp [hn]
    simp [hz]
  have h0 : (runSync ds).errors = [] := (runSync_errors_eq_nil_iff ds).mpr herr
  refine ⟨h0, ?_, ?_⟩ <;> unfold mainRun <;> simp [h0]

/-- C10 witness: a run whose only anomaly is a failing activity
weather detail collector still commits the cursor and exits 0. -/
theorem c10_witness :
    (∀ d ∈ [DayOutcome.mk [("daily stats", .ok 3)]
        (.ok 1 [[("activity weather", .exc .other)]] none)],
       (∀ c ∈ d.cols, c.2.isOk = true) ∧
       ∃ n det, d.acts = ActsOutcome.ok n det none) ∧
    (runSync [DayOutcome.mk [("daily stats", .ok 3)]
        (.ok 1 [[("activity weather", .exc .other)]] none)]).errors = [] ∧
    (mainRun [DayOutcome.mk [("daily stats", .ok 3)]
        (.ok 1 [[("activity weather", .exc .other)]] none)] 5).cursorWritten = some 5 ∧
    (mainRun [DayOutcome.mk [("daily stats", .ok 3)]
        (.ok 1 [[("activity weather", .exc .other)]] none)] 5).exitCode = 0 := by
  have hh : ∀ d ∈ [DayOutcome.mk [("daily stats", .ok 3)]
      (.ok 1 [[("activity weather", .exc .other)]] none)],
      (∀ c ∈ d.cols, c.2.isOk = true) ∧
      ∃ n det, d.acts = ActsOutcome.ok n det none := by
    intro d hd
    rw [List.mem_singleton] at hd
    subst hd
    exact ⟨by decide, 1, [[("activity weather", .exc .other)]], rfl⟩
  exact ⟨hh, c10_subcategory_failures_benign _ 5 hh⟩

/-! ## C8 -/

theorem hrPairPoint_fields (pair : JVal) (p : MPoint)
    (h : hrPairPoint pair = .ok (some p)) : p.fields ≠ [] := by
  unfold hrPairPoint at h
  split at h
  · split at h
    · cases h
    · cases h
    · split at h
      · cases h
      · split at h
        · cases h
        · cases h
          simp
  · cases h

theorem hrPairsPoints_fields (pairs : List JVal) :
    ∀ pts, hrPairsPoints pairs = .ok pts → ∀ p ∈ pts, p.fields ≠ [] := by
  induction pairs with
  | nil =>
    intro pts h p hp
    cases h
    cases hp
  | cons pair rest ih =>
    intro pts h p hp
    unfold hrPairsPoints at h
    cases h1 : hrPairPoint pair with
    | error e => rw [h1] at h; cases h
    | ok popt =>
      rw [h1] at h
      cases h2 : hrPairsPoints rest with
      | error e => rw [h2] at h; cases h
      | ok ps =>
        rw [h2] at h
        cases popt with
        | some q =>
          simp only [] at h
          cases h
          rcases List.mem_cons.mp hp with hp | hp
          · subst hp; exact hrPairPoint_fields pair p h1
          · exact ih _ h2 p hp
        | none =>
          simp only [] at h
          cases h
          exact ih _ h2 p hp

theorem hrEntryPoints_fields (entry : JVal) (pts : List MPoint)
    (h : hrEntryPoints entry = .ok pts) : ∀ p ∈ pts, p.fields ≠ [] := by
  unfold hrEntryPoints at h
  split at h
  · simp only [] at h
    split at h
    · split at h
      · exact hrPairsPoints_fields _ _ h
      · cases h; intro p hp; cases hp
    · cases h; intro p hp; cases hp
  · cases h; intro p hp; cases hp

theorem hrEntriesPoints_fields (entries : List JVal) :
    ∀ pts, hrEntriesPoints entries = .ok pts → ∀ p ∈ pts, p.fields ≠ [] := by
  induction entries with
  | nil => intro pts h p hp; cases h; cases hp
  | cons entry rest ih =>
    intro pts h p hp
    unfold hrEntriesPoints at h
    cases h1 : hrEntryPoints entry with
    | error e => rw [h1] at h; cases h
    | ok ps1 =>
      rw [h1] at h
      cases h2 : hrEntriesPoints rest with
      | error e => rw [h2] at h; cases h
      | ok ps2 =>
        rw [h2] at h
        simp only [] at h
        cases h
        rcases List.mem_append.mp hp with hp | hp
        · exact hrEntryPoints_fields entry ps1 h1 p hp
        · exact ih ps2 h2 p hp

theorem actPointAt_fields (kvs : List (String × JVal)) (tm : Date × Nat × Nat × Nat)
    (p : MPoint) (h : actPointAt kvs tm = .ok (some p)) : p.fields ≠ [] := by
  unfold actPointAt at h
  split at h
  · split at h
    · cases h
    · rename_i hne
      cases h
      intro hnil
      have h0 : actFields kvs = [] := hnil
      rw [h0] at hne
      exact hne rfl
  · cases h

theorem actPoint_fields (act : JVal) (p : MPoint)
    (h : actPoint act = .ok (some p)) : p.fields ≠ [] := by
  unfold actPoint at h
  split at h
  · simp only [] at h
    split at h
    · split at h
      · cases h
      · exact actPointAt_fields _ _ _ h
    · split at h
      · split at h
        · cases h
        · exact actPointAt_fields _ _ _ h
      · cases h
  · cases h

theorem actsPoints_fields (acts : List JVal) :
    ∀ pts, actsPoints acts = .ok pts → ∀ p ∈ pts, p.fields ≠ [] := by
  induction acts with
  | nil => intro pts h p hp; cases h; cases hp
  | cons act rest ih =>
    intro pts h p hp
    unfold actsPoints at h
    cases h1 : actPoint act with
    | error e => rw [h1] at h; cases h
    | ok popt =>
      rw [h1] at h
      cases h2 : actsPoints rest with
      | error e => rw [h2] at h; cases h
      | ok ps =>
        rw [h2] at h
        cases popt with
        | some q =>
          simp only [] at h
          cases h
          rcases List.mem_cons.mp hp with hp | hp
          · subst hp; exact actPoint_fields act p h1
          · exact ih _ h2 p hp
        | none =>
          simp only [] at h
          cases h
          exact ih _ h2 p hp

/-- C8: every point produced by the daily-stats, heart-rate or
activity builder carries at least one field; no builder ever includes a
field-less point in its result list. -/
theorem c8_points_have_fields :
    (∀ stats s pts, build_daily_stats_points stats s = .ok pts →
       ∀ p ∈ pts, p.fields ≠ []) ∧
    (∀ hr s pts, build_heart_rate_points hr s = .ok pts →
       ∀ p ∈ pts, p.fields ≠ []) ∧
    (∀ acts pts, build_activity_points acts = .ok pts →
       ∀ p ∈ pts, p.fields ≠ []) := by
  refine ⟨?_, ?_, ?_⟩
  · intro stats s pts h p hp
    unfold build_daily_stats_points at h
    split at h
    · cases h
    · simp only [] at h
      split at h
      · cases h
        rcases List.mem_append.mp hp with hm | hm <;>
          rcases List.mem_map.mp hm with ⟨f, _, rfl⟩ <;> simp
      · cases h
  · intro hr s pts h p hp
    unfold build_heart_rate_points at h
    split at h
    · cases h
    · exact hrEntriesPoints_fields _ _ h p hp
  · intro acts pts h p hp
    unfold build_activity_points at h
    split at h
    · cases h
    · exact actsPoints_fields _ _ h p hp

/-- C8 witness: a concrete daily-stats build whose single point has a
non-empty field list. -/
theorem c8_witness :
    build_daily_stats_points (.obj [("totalSteps", .num 1)]) "2024-06-01" =
      .ok [⟨"daily_stats", .sec ⟨2024, 6, 1⟩ 0 0 0, [], [("steps", 1)]⟩] ∧
    (MPoint.mk "daily_stats" (.sec ⟨2024, 6, 1⟩ 0 0 0) [] [("steps", 1)]).fields ≠ [] :=
  ⟨rfl,
   c8_points_have_fields.1 (.obj [("totalSteps", .num 1)]) "2024-06-01"
     [⟨"daily_stats", .sec ⟨2024, 6, 1⟩ 0 0 0, [], [("steps", 1)]⟩] rfl
     ⟨"daily_stats", .sec ⟨2024, 6, 1⟩ 0 0 0, [], [("steps", 1)]⟩
     (List.mem_singleton.mpr rfl)⟩

/-! ## C4 amended -/

theorem dailyDeclaredFields_drop (pre post : List (String × JVal)) (k : String)
    (v : JVal) (hk : k ∉ (pre ++ post).map Prod.fst) (hv : _safe_float v = none) :
    dailyDeclaredFields (pre ++ (k, v) :: post) = dailyDeclaredFields (pre ++ post) := by
  have hkpre : k ∉ pre.map Prod.fst := by
    intro hx; exact hk (by rw [List.map_append]; exact List.mem_append_left _ hx)
  unfold dailyDeclaredFields
  apply filterMap_ext
  intro p _
  by_cases hpk : p.1 = k
  · rw [hpk, jlookup_middle_self pre post k v hkpre, jlookup_not_mem _ _ hk]
    cases v with
    | null => rfl
    | bool b => simp [hv]
    | num q => simp [hv]
    | str s => simp [hv]
    | arr xs => simp [hv]
    | obj kvs2 => simp [hv]
  · rw [jlookup_middle_ne pre post k p.1 v hpk]

theorem extraField_none (known : List String) (k : String) (v : JVal)
    (hv : _safe_float v = none) : extraField known (k, v) = none := by
  unfold extraField
  by_cases hkn : known.contains k = true ∨ _IGNORED_GENERIC_KEYS.contains k = true
  · rw [if_pos hkn]
  · rw [if_neg hkn]
    cases v with
    | null => rfl
    | bool b => simp [hv]
    | num q => simp [hv]
    | str s => simp [hv]
    | arr xs => rfl
    | obj kvs2 => rfl

theorem collect_extra_drop (pre post : List (String × JVal)) (k : String)
    (v : JVal) (known : List String) (hv : _safe_float v = none) :
    _collect_extra_fields (.obj (pre ++ (k, v) :: post)) known =
      _collect_extra_fields (.obj (pre ++ post)) known := by
  unfold _collect_extra_fields
  simp only []
  rw [List.filterMap_append, List.filterMap_append, List.filterMap_cons,
    extraField_none known k v hv]

/-- C4 (amended): on object (dict) records the daily-stats builder is
total for every parseable reference day, and a record value that fails
numeric coercion only drops that one field: building with the
non-coercible entry present equals building with it removed. -/
theorem c4_amended_builder_totality :
    (∀ kvs s d, parseDate s = some d →
       ∃ pts, build_daily_stats_points (.obj kvs) s = .ok pts) ∧
    (∀ pre post k v s, k ∉ (pre ++ post).map Prod.fst → _safe_float v = none →
       build_daily_stats_points (.obj (pre ++ (k, v) :: post)) s =
         build_daily_stats_points (.obj (pre ++ post)) s) := by
  constructor
  · intro kvs s d hs
    unfold build_daily_stats_points
    rw [hs]
    exact ⟨_, rfl⟩
  · intro pre post k v s hk hv
    unfold build_daily_stats_points
    cases hs : parseDate s with
    | none => rfl
    | some d =>
      simp only []
      rw [dailyDeclaredFields_drop pre post k v hk hv,
        collect_extra_drop pre post k v _ hv]

/-- C4 (amended) witness: a dict record with a non-numeric
totalDistanceMeters value builds the same points as the record without
that entry, and the build returns ok. -/
theorem c4_witness :
    parseDate "2024-06-01" = some ⟨2024, 6, 1⟩ ∧
    _safe_float (.str "oops") = none ∧
    build_daily_stats_points
      (.obj [("totalSteps", .num 7), ("totalDistanceMeters", .str "oops")])
      "2024-06-01" =
    build_daily_stats_points (.obj [("totalSteps", .num 7)]) "2024-06-01" ∧
    (∃ pts, build_daily_stats_points (.obj [("totalSteps", .num 7)]) "2024-06-01"
      = .ok pts) :=
  ⟨by decide, by decide,
   c4_amended_builder_totality.2 [("totalSteps", .num 7)] [] "totalDistanceMeters"
     (.str "oops") "2024-06-01" (by decide) (by decide),
   c4_amended_builder_totality.1 [("totalSteps", .num 7)] "2024-06-01"
     ⟨2024, 6, 1⟩ (by decide)⟩

end CatGar
